import Mathlib

/-!
Verification development for the Interactive Data-Analysis Application
(`src/Inicio.py`).  The script is a Streamlit app: on every user
interaction the whole of `main` re-executes ("rerun" model).  We embed one
such rerun as a pure function from
  - the widget values read during the rerun (credential, model name,
    temperature, uploaded file, question text, button states),
  - the session state on entry (the `chat_history` key, absent or a list
    of question/answer entries), and
  - the outcomes of the external library calls made at the boundary
    (`pd.read_csv`, `pd.read_excel`, the `pd.io.formats.info.get_info_summary`
    call of line 95, `ChatOpenAI`, `create_pandas_dataframe_agent`,
    `agent.invoke`), each modelled as an `Except String` oracle carried in
    the input,
to
  - the ordered list of UI elements written during the rerun,
  - the session state on exit,
  - whether `st.rerun()` was called (modelled by its documented contract:
    it aborts the current run and forces a fresh one), and
  - the ordered list of external calls actually made.

Exceptions raised by an external call propagate to the enclosing
`try`/`except` of the script, exactly as in the source: the file-load
`try` of line 66 covers parsing and the whole dataset/agent block, the
agent-construction `try` of line 115 covers client and agent construction,
and the inner `try` of line 176 covers the agent invocation.
-/

namespace DataAgent

/-- One stored conversation entry: the dict
`{"question": ..., "answer": ...}` appended at lines 181-184 of
`src/Inicio.py`. -/
structure ChatEntry where
  question : String
  answer : String
deriving Repr, DecidableEq

/-- One column of the parsed table: its name, its dtype rendered as text
(`df.dtypes.astype(str)`), and its cells, `none` marking a null value.
`df.count()` counts the non-null cells and `df.isnull().sum()` the null
ones. -/
structure Column where
  name : String
  dtype : String
  cells : List (Option String)
deriving Repr, DecidableEq

/-- The parsed tabular dataset delivered by the parsing library.
`memoryDeepBytes` models the number reported by
`df.memory_usage(deep=True).sum()`, a quantity computed by the library and
not derivable from the cells alone. -/
structure DataFrame where
  cols : List Column
  memoryDeepBytes : Nat
deriving Repr, DecidableEq

/-- Row count, `df.shape[0]`. -/
def DataFrame.nRows (df : DataFrame) : Nat :=
  match df.cols with
  | [] => 0
  | c :: _ => c.cells.length

/-- Column count, `df.shape[1]`. -/
def DataFrame.nCols (df : DataFrame) : Nat := df.cols.length

/-- `df.head(n)`: the same columns restricted to the first `n` rows. -/
def DataFrame.headRows (df : DataFrame) (n : Nat) : DataFrame :=
  { cols := df.cols.map fun c => { c with cells := c.cells.take n },
    memoryDeepBytes := df.memoryDeepBytes }

/-- Non-null count of a column, one cell of the `No Nulos` column of the
schema table (line 99: `df.count()`). -/
def Column.countNonNull (c : Column) : Nat :=
  (c.cells.filter Option.isSome).length

/-- Null count of a column, one cell of the `Nulos` column of the schema
table (line 100: `df.isnull().sum()`). -/
def Column.countNull (c : Column) : Nat :=
  (c.cells.filter Option.isNone).length

/-- Whether a rendered dtype name is selected by
`df.select_dtypes(include=["number"])` (line 106): the numeric dtype
kinds of the tabular library. -/
def isNumericDtype (t : String) : Bool :=
  t == "int8" || t == "int16" || t == "int32" || t == "int64" ||
  t == "uint8" || t == "uint16" || t == "uint32" || t == "uint64" ||
  t == "float16" || t == "float32" || t == "float64"

/-- The result object returned by `agent.invoke`; the script reads its
`"output"` field (line 183). -/
structure AgentResponse where
  output : String
deriving Repr, DecidableEq

/-- The uploaded file as seen by the script: only its `name` attribute is
consulted (line 68); the bytes are consumed by the parsing oracle. -/
structure UploadedFile where
  name : String
deriving Repr, DecidableEq

/-- Outcomes of the external library calls the rerun may make, each a
value or a raised exception rendered by `str(e)`. -/
structure Services where
  readCsv : Except String DataFrame
  readExcel : Except String DataFrame
  infoSummary : Except String Unit
  chatOpenAI : Except String Unit
  createAgent : Except String Unit
  agentInvoke : String → Except String AgentResponse

/-- All widget values and external-call outcomes of one rerun. -/
structure RerunInput where
  openai_api_key : String
  model_name : String
  temperatureTenths : Nat
  uploaded_file : Option UploadedFile
  user_question : String
  ask_button : Bool
  clear_button : Bool
  services : Services

/-- Which external call was made, in order, during the rerun. -/
inductive ExtCall where
  | readCsv
  | readExcel
  | infoSummary
  | chatOpenAI
  | createAgent
  | agentInvoke
deriving Repr, DecidableEq

/-- One UI element written during the rerun, in the order the script
writes them.  Widgets that collect input (`st.text_input`, `st.selectbox`,
`st.slider`, `st.file_uploader`, `st.button`) appear with their label;
`expanderEntry` is one collapsible history section (label, expanded flag,
rendered entry, lines 198-203). -/
inductive UIEvent where
  | title : String → UIEvent
  | headerText : String → UIEvent
  | subheader : String → UIEvent
  | markdown : String → UIEvent
  | warning : String → UIEvent
  | info : String → UIEvent
  | success : String → UIEvent
  | errorMsg : String → UIEvent
  | metric : String → String → UIEvent
  | writeText : String → UIEvent
  | textInput : String → UIEvent
  | selectbox : String → UIEvent
  | slider : String → UIEvent
  | fileUploader : String → UIEvent
  | button : String → UIEvent
  | previewView : DataFrame → UIEvent
  | schemaView : List (String × String × Nat × Nat) → UIEvent
  | statsView : List String → UIEvent
  | expanderEntry : String → Bool → ChatEntry → UIEvent
  | divider : UIEvent
deriving Repr, DecidableEq

/-- Everything one rerun produces: the written UI elements, the session
state on exit (`chat_history`, `none` when the key was never created),
whether `st.rerun()` was called, the external calls made, and the value
written to the `OPENAI_API_KEY` environment variable (line 55), if any. -/
structure RerunResult where
  events : List UIEvent
  chatHistory : Option (List ChatEntry)
  rerunForced : Bool
  calls : List ExtCall
  envApiKey : Option String
deriving Repr

/-- Output of one block of the script body: used to compose the nested
`try` blocks. -/
structure SectionOut where
  events : List UIEvent
  chatHistory : Option (List ChatEntry)
  rerunForced : Bool
  calls : List ExtCall
deriving Repr

/-- Page title, introduction and sidebar configuration widgets, written
unconditionally at lines 11-46. -/
def configEvents : List UIEvent :=
  [ UIEvent.title "📊 Análisis de Datos con LangChain y Pandas",
    UIEvent.markdown "**Carga tu archivo CSV/XLS y haz preguntas sobre tus datos usando IA**",
    UIEvent.headerText "⚙️ Configuración",
    UIEvent.textInput "🔑 API Key de OpenAI:",
    UIEvent.selectbox "🤖 Modelo OpenAI:",
    UIEvent.slider "🌡️ Temperatura:" ]

/-- Warning of line 50, shown when the credential is empty. -/
def credWarning : UIEvent :=
  UIEvent.warning "⚠️ Por favor, ingresa tu API Key de OpenAI en la barra lateral."

/-- Pointer of line 51, shown when the credential is empty. -/
def credInfo : UIEvent :=
  UIEvent.info "Puedes obtener tu API key en: https://platform.openai.com/api-keys"

/-- Upload header and uploader widget, lines 58-63. -/
def uploadPrompt : List UIEvent :=
  [ UIEvent.headerText "📁 Carga tu archivo",
    UIEvent.fileUploader "Selecciona un archivo CSV o Excel:" ]

/-- The static explanatory panel of lines 219-232. -/
def aboutText : String :=
  "Esta aplicación utiliza:\n" ++
  "- **Streamlit** para la interfaz web\n" ++
  "- **LangChain** para la gestión de agentes IA\n" ++
  "- **OpenAI GPT** para el procesamiento de lenguaje natural\n" ++
  "- **Pandas** para el análisis de datos\n\n" ++
  "**Funcionalidades:**\n" ++
  "- Carga archivos CSV y Excel\n" ++
  "- Análisis automático de datos con IA\n" ++
  "- Respuestas en lenguaje natural\n" ++
  "- Generación de estadísticas y visualizaciones\n" ++
  "- Historial de conversación"

/-- Idle guidance shown when no file has been uploaded, lines 214-232. -/
def idleEvents : List UIEvent :=
  [ UIEvent.info "👆 Carga un archivo CSV o Excel para comenzar el análisis.",
    UIEvent.markdown "---",
    UIEvent.subheader "ℹ️ Sobre esta aplicación",
    UIEvent.markdown aboutText ]

/-- File-load failure message of line 210, carrying `str(e)`. -/
def fileLoadError (e : String) : UIEvent :=
  UIEvent.errorMsg ("❌ Error al cargar el archivo: " ++ e)

/-- Format-check hint of line 211. -/
def fileLoadHint : UIEvent :=
  UIEvent.info "Verifica que el archivo tenga el formato correcto (CSV o Excel)."

/-- Agent-construction failure message of line 206, carrying `str(e)`. -/
def agentInitError (e : String) : UIEvent :=
  UIEvent.errorMsg ("❌ Error al inicializar el agente: " ++ e)

/-- Credential/quota hint of line 207. -/
def agentInitHint : UIEvent :=
  UIEvent.info "Verifica que tu API key de OpenAI sea válida y tenga créditos disponibles."

/-- Question-processing failure message of line 190, carrying `str(e)`. -/
def askError (e : String) : UIEvent :=
  UIEvent.errorMsg ("❌ Error al procesar la pregunta: " ++ e)

/-- Rephrase/column hint of line 191. -/
def askHint : UIEvent :=
  UIEvent.info "💡 Intenta reformular tu pregunta o verifica que la columna mencionada existe en el dataset."

/-- The eight hard-coded example questions of lines 136-145. -/
def exampleQuestions : List String :=
  [ "¿Cuántas filas tiene el dataset?",
    "¿Cuáles son las columnas numéricas?",
    "Muestra un resumen estadístico de los datos",
    "¿Hay valores nulos en el dataset?",
    "¿Cuál es la correlación entre las variables numéricas?",
    "Crea un gráfico de las variables más importantes",
    "¿Cuáles son los valores únicos de [nombre_columna]?",
    "Calcula la media, mediana y moda de [columna_numerica]" ]

/-- The numbered example lines written at lines 147-148
(`enumerate(examples, 1)`). -/
def exampleEvents : List UIEvent :=
  (List.enumFrom 1 exampleQuestions).map fun p =>
    UIEvent.writeText (toString p.1 ++ ". " ++ p.2)

/-- Python `s.endswith(suffix)`: whether the characters of `suffix` are a
suffix of the characters of `s`. -/
def strEndsWith (s suffix : String) : Bool :=
  suffix.data.isSuffixOf s.data

/-- Dispatch of lines 68-71: a filename ending in `.csv` goes to
`pd.read_csv`, any other uploaded name to `pd.read_excel`. -/
def parseOutcome (svc : Services) (f : UploadedFile) : Except String DataFrame :=
  if strEndsWith f.name ".csv" then svc.readCsv else svc.readExcel

/-- The external call made by the dispatch of lines 68-71. -/
def parseCallOf (f : UploadedFile) : ExtCall :=
  if strEndsWith f.name ".csv" then ExtCall.readCsv else ExtCall.readExcel

/-- The per-column schema table of lines 96-101: for every column its
name, its dtype as text, its non-null count and its null count. -/
def schemaReport (df : DataFrame) : List (String × String × Nat × Nat) :=
  df.cols.map fun c => (c.name, c.dtype, c.countNonNull, c.countNull)

/-- One decimal place rendering of `bytes / 1024`, the `💾 Tamaño` metric
of line 82 (rounding to the nearest tenth). -/
def formatKB (bytes : Nat) : String :=
  let tenths := (bytes * 10 + 512) / 1024
  toString (tenths / 10) ++ "." ++ toString (tenths % 10)

/-- Load confirmation, metrics, preview tab and the header of the
information tab: lines 73-94, written before the line-95 call. -/
def datasetEvents (fname : String) (df : DataFrame) : List UIEvent :=
  [ UIEvent.success ("✅ Archivo cargado exitosamente: " ++ fname),
    UIEvent.metric "📏 Filas" (toString df.nRows),
    UIEvent.metric "📊 Columnas" (toString df.nCols),
    UIEvent.metric "💾 Tamaño" (formatKB df.memoryDeepBytes ++ " KB"),
    UIEvent.headerText "👀 Vista previa de los datos",
    UIEvent.previewView (df.headRows 100),
    UIEvent.subheader "Información del Dataset" ]

/-- The statistics tab, lines 104-110: the describe table over the numeric
columns, or the informational message when `numeric_df.empty` (no numeric
column, or a table with no rows). -/
def statsEvent (df : DataFrame) : UIEvent :=
  let numeric := df.cols.filter fun c => isNumericDtype c.dtype
  if numeric.isEmpty || df.nRows == 0 then
    UIEvent.info "No hay columnas numéricas para mostrar estadísticas."
  else
    UIEvent.statsView (numeric.map Column.name)

/-- Section label of a history entry, line 198: the question truncated to
its first 60 characters plus an ellipsis when longer than 60 characters,
the full question otherwise, prefixed by the question marker. -/
def expanderLabel (q : String) : String :=
  if q.length > 60 then "❓ " ++ q.take 60 ++ "..." else "❓ " ++ q

/-- Conversation history rendering, lines 194-203: nothing when the
history is empty; otherwise the history subheader followed by one
collapsible section per entry, iterating over
`enumerate(reversed(chat_history))` with only index 0 expanded. -/
def renderHistory (hist : List ChatEntry) : List UIEvent :=
  if hist.isEmpty then []
  else
    UIEvent.subheader "💬 Historial de conversación" ::
      (List.enumFrom 0 hist.reverse).map fun p =>
        UIEvent.expanderEntry (expanderLabel p.2.question) (p.1 == 0) p.2

/-- Lines 150-203: question subheader, lazy initialization of
`chat_history` (line 154), input widgets, the two button handlers and the
history rendering.  `st.rerun()` (lines 172 and 187) aborts the rest of
the block and forces a fresh run. -/
def qaSection (svc : Services) (question : String)
    (askButton clearButton : Bool) (hist : List ChatEntry) : SectionOut :=
  let widgets : List UIEvent :=
    [ UIEvent.subheader "❓ Haz tu pregunta sobre los datos",
      UIEvent.textInput "Escribe tu pregunta:",
      UIEvent.button "🚀 Preguntar",
      UIEvent.button "🗑️ Limpiar historial" ]
  if clearButton then
    { events := widgets, chatHistory := some [], rerunForced := true, calls := [] }
  else if askButton ∧ question ≠ "" then
    match svc.agentInvoke question with
    | Except.ok resp =>
      { events := widgets,
        chatHistory := some (hist ++ [{ question := question, answer := resp.output }]),
        rerunForced := true, calls := [ExtCall.agentInvoke] }
    | Except.error e =>
      { events := widgets ++ [askError e, askHint] ++ renderHistory hist,
        chatHistory := some hist, rerunForced := false,
        calls := [ExtCall.agentInvoke] }
  else
    { events := widgets ++ renderHistory hist,
      chatHistory := some hist, rerunForced := false, calls := [] }

/-- Lines 113-207: the agent header and the `try` block constructing the
chat client (line 117) and the dataframe agent (line 124); a failure of
either is caught at line 205 and reported, leaving the session state
untouched.  On success the confirmation, the example list and the
question/answer block follow. -/
def agentSection (svc : Services) (question : String)
    (askButton clearButton : Bool) (st0 : Option (List ChatEntry)) : SectionOut :=
  let head : List UIEvent := [UIEvent.headerText "🤖 Agente de Análisis IA"]
  match svc.chatOpenAI with
  | Except.error e =>
    { events := head ++ [agentInitError e, agentInitHint],
      chatHistory := st0, rerunForced := false, calls := [ExtCall.chatOpenAI] }
  | Except.ok _ =>
    match svc.createAgent with
    | Except.error e =>
      { events := head ++ [agentInitError e, agentInitHint],
        chatHistory := st0, rerunForced := false,
        calls := [ExtCall.chatOpenAI, ExtCall.createAgent] }
    | Except.ok _ =>
      let out := qaSection svc question askButton clearButton (st0.getD [])
      { events := head ++
          [ UIEvent.success "🎯 Agente IA inicializado correctamente",
            UIEvent.subheader "💡 Ejemplos de preguntas que puedes hacer:" ] ++
          exampleEvents ++ out.events,
        chatHistory := out.chatHistory, rerunForced := out.rerunForced,
        calls := [ExtCall.chatOpenAI, ExtCall.createAgent] ++ out.calls }

/-- Lines 73-207, entered after a successful parse: the dataset summary
and views, with the line-95 `get_info_summary` call made inside the
information tab; its exception propagates to the file-load `except` of
line 209, so the schema table, the statistics tab and the whole agent
block are skipped.  On success the schema table, the statistics tab and
the agent section follow. -/
def loadedSection (svc : Services) (fname : String) (df : DataFrame)
    (question : String) (askButton clearButton : Bool)
    (st0 : Option (List ChatEntry)) : SectionOut :=
  match svc.infoSummary with
  | Except.error e =>
    { events := datasetEvents fname df ++ [fileLoadError e, fileLoadHint],
      chatHistory := st0, rerunForced := false, calls := [ExtCall.infoSummary] }
  | Except.ok _ =>
    let out := agentSection svc question askButton clearButton st0
    { events := datasetEvents fname df ++
        [ UIEvent.schemaView (schemaReport df),
          UIEvent.subheader "Estadísticas Descriptivas",
          statsEvent df ] ++ out.events,
      chatHistory := out.chatHistory, rerunForced := out.rerunForced,
      calls := ExtCall.infoSummary :: out.calls }

/-- Lines 65-211: the `try` block around parsing and everything below it;
a parse failure is caught at line 209 and reported, and nothing
dataset-dependent is written. -/
def fileSection (svc : Services) (f : UploadedFile) (question : String)
    (askButton clearButton : Bool) (st0 : Option (List ChatEntry)) : SectionOut :=
  match parseOutcome svc f with
  | Except.error e =>
    { events := [fileLoadError e, fileLoadHint],
      chatHistory := st0, rerunForced := false, calls := [parseCallOf f] }
  | Except.ok df =>
    let out := loadedSection svc f.name df question askButton clearButton st0
    { events := out.events, chatHistory := out.chatHistory,
      rerunForced := out.rerunForced, calls := parseCallOf f :: out.calls }

/-- One full rerun of `main` (`src/Inicio.py`): configuration widgets,
the empty-credential guard of lines 49-52 (warning, pointer, `return`),
the environment-variable write of line 55, the upload widget, and then
either the idle guidance (no file) or the file section. -/
def appRun (inp : RerunInput) (st0 : Option (List ChatEntry)) : RerunResult :=
  if inp.openai_api_key = "" then
    { events := configEvents ++ [credWarning, credInfo],
      chatHistory := st0, rerunForced := false, calls := [], envApiKey := none }
  else
    match inp.uploaded_file with
    | none =>
      { events := configEvents ++ uploadPrompt ++ idleEvents,
        chatHistory := st0, rerunForced := false, calls := [],
        envApiKey := some inp.openai_api_key }
    | some f =>
      let out := fileSection inp.services f inp.user_question
        inp.ask_button inp.clear_button st0
      { events := configEvents ++ uploadPrompt ++ out.events,
        chatHistory := out.chatHistory, rerunForced := out.rerunForced,
        calls := out.calls, envApiKey := some inp.openai_api_key }

/-- The conversation entries carried by the collapsible sections of an
event list, in rendering order. -/
def renderedEntries (evs : List UIEvent) : List ChatEntry :=
  evs.filterMap fun ev =>
    match ev with
    | UIEvent.expanderEntry _ _ c => some c
    | _ => none

/-- The expanded flags of the collapsible sections of an event list, in
rendering order. -/
def expandedFlags (evs : List UIEvent) : List Bool :=
  evs.filterMap fun ev =>
    match ev with
    | UIEvent.expanderEntry _ b _ => some b
    | _ => none

/-- Whether an event belongs to the conversation-history section or is
one of the ask/clear controls (the question text field and the two
buttons of lines 158-168, the history subheader and sections of lines
194-203). -/
def isHistoryOrControl (ev : UIEvent) : Bool :=
  match ev with
  | UIEvent.expanderEntry _ _ _ => true
  | UIEvent.subheader s => s == "💬 Historial de conversación"
  | UIEvent.button _ => true
  | UIEvent.textInput s => s == "Escribe tu pregunta:"
  | _ => false

/-- `true` when no event of the list is part of the history section or of
the ask/clear controls. -/
def noHistoryOrControl (evs : List UIEvent) : Bool :=
  evs.all fun ev => !(isHistoryOrControl ev)

/-- `true` when some event of the list is the per-column schema table. -/
def hasSchemaView (evs : List UIEvent) : Bool :=
  evs.any fun ev =>
    match ev with
    | UIEvent.schemaView _ => true
    | _ => false

/-- A small parsed table used as concrete oracle output in witnesses. -/
def sampleDF : DataFrame :=
  { cols := [ { name := "a", dtype := "int64", cells := [some "1", some "2"] },
              { name := "b", dtype := "object", cells := [some "x", none] } ],
    memoryDeepBytes := 300 }

/-- External-call outcomes where every boundary call succeeds. -/
def okServices : Services :=
  { readCsv := Except.ok sampleDF
    readExcel := Except.ok sampleDF
    infoSummary := Except.ok ()
    chatOpenAI := Except.ok ()
    createAgent := Except.ok ()
    agentInvoke := fun _ => Except.ok { output := "El dataset tiene 2 filas." } }

/-- A rerun with a credential, an uploaded `.csv` file and no button
pressed. -/
def baseInput : RerunInput :=
  { openai_api_key := "sk-test"
    model_name := "gpt-3.5-turbo"
    temperatureTenths := 1
    uploaded_file := some { name := "datos.csv" }
    user_question := ""
    ask_button := false
    clear_button := false
    services := okServices }

/-- Claim C3: with an empty credential the rerun is a guarded early exit:
beyond the always-rendered configuration widgets, only the warning and
the informational pointer are shown, no external call is made (so no
language-model client, no agent, and no file or dataset work), the
environment variable is not written, the session state is untouched and
no rerun is forced — whatever file may be uploaded. -/
theorem empty_credential_guard
    (inp : RerunInput) (st0 : Option (List ChatEntry))
    (hkey : inp.openai_api_key = "") :
    (appRun inp st0).events = configEvents ++ [credWarning, credInfo] ∧
    (appRun inp st0).calls = [] ∧
    (appRun inp st0).envApiKey = none ∧
    (appRun inp st0).chatHistory = st0 ∧
    (appRun inp st0).rerunForced = false := by
  simp [appRun, hkey]

/-- Witness for `empty_credential_guard`: an empty credential together
with an uploaded file still yields only the warning and the pointer. -/
theorem empty_credential_guard_witness :
    (appRun { baseInput with openai_api_key := "" } none).events =
      configEvents ++ [credWarning, credInfo] ∧
    (appRun { baseInput with openai_api_key := "" } none).calls = [] ∧
    (appRun { baseInput with openai_api_key := "" } none).envApiKey = none ∧
    (appRun { baseInput with openai_api_key := "" } none).chatHistory = none ∧
    (appRun { baseInput with openai_api_key := "" } none).rerunForced = false :=
  empty_credential_guard { baseInput with openai_api_key := "" } none rfl

/-- Claim C7: the section label of a rendered conversation entry is the
question truncated to its first 60 characters with a trailing ellipsis
when the question is longer than 60 characters, and the full question
with no ellipsis otherwise, in both cases prefixed by the question
marker. -/
theorem label_truncation (q : String) :
    (60 < q.length → expanderLabel q = "❓ " ++ q.take 60 ++ "...") ∧
    (q.length ≤ 60 → expanderLabel q = "❓ " ++ q) := by
  constructor
  · intro h
    simp only [expanderLabel]
    rw [if_pos h]
  · intro h
    simp only [expanderLabel]
    rw [if_neg (by omega)]

/-- A 70-character question used to witness the truncation. -/
def longQuestion : String :=
  "aaaaaaaaaaaaaaaaaaaaaaaaaaaaaaaaaaaaaaaaaaaaaaaaaaaaaaaaaaaaaaaaaaaaaa"

set_option maxRecDepth 100000 in
/-- Witness for `label_truncation` at a 70-character and a 4-character
question. -/
theorem label_truncation_witness :
    expanderLabel longQuestion =
      "❓ aaaaaaaaaaaaaaaaaaaaaaaaaaaaaaaaaaaaaaaaaaaaaaaaaaaaaaaaaaaa..." ∧
    expanderLabel "Hola" = "❓ Hola" := by
  constructor
  · rw [(label_truncation longQuestion).1 (by decide)]
    rfl
  · exact (label_truncation "Hola").2 (by decide)

/-- Claim C8: whenever the clear-history button is reached and pressed,
the session's conversation sequence is reset to the empty sequence,
whatever it held, and a full rerun is forced. -/
theorem clear_history_resets_and_reruns
    (inp : RerunInput) (st0 : Option (List ChatEntry)) (f : UploadedFile)
    (df : DataFrame)
    (hkey : inp.openai_api_key ≠ "")
    (hfile : inp.uploaded_file = some f)
    (hparse : parseOutcome inp.services f = Except.ok df)
    (hinfo : inp.services.infoSummary = Except.ok ())
    (hchat : inp.services.chatOpenAI = Except.ok ())
    (hagent : inp.services.createAgent = Except.ok ())
    (hclear : inp.clear_button = true) :
    (appRun inp st0).chatHistory = some [] ∧
    (appRun inp st0).rerunForced = true := by
  simp [appRun, fileSection, loadedSection, agentSection, qaSection,
    hkey, hfile, hparse, hinfo, hchat, hagent, hclear]

/-- Witness for `clear_history_resets_and_reruns`: pressing clear with a
two-entry history empties it and forces a rerun. -/
theorem clear_history_resets_and_reruns_witness :
    (appRun { baseInput with clear_button := true }
        (some [ { question := "q1", answer := "a1" },
                { question := "q2", answer := "a2" } ])).chatHistory = some [] ∧
    (appRun { baseInput with clear_button := true }
        (some [ { question := "q1", answer := "a1" },
                { question := "q2", answer := "a2" } ])).rerunForced = true :=
  clear_history_resets_and_reruns { baseInput with clear_button := true }
    (some [ { question := "q1", answer := "a1" },
            { question := "q2", answer := "a2" } ])
    { name := "datos.csv" } sampleDF (by decide) rfl rfl rfl rfl rfl rfl

/-- External-call outcomes where the line-95 `get_info_summary` call
raises, as the tabular library has no such function. -/
def infoFailServices : Services :=
  { okServices with
    infoSummary :=
      Except.error "module pandas.io.formats.info has no attribute get_info_summary" }

/-- The rerun input exhibiting the line-95 failure: a valid credential
and a `.csv` upload that parses successfully. -/
def c2Input : RerunInput := { baseInput with services := infoFailServices }

/-- Claim C1: when the credential is set, the file parses, the line-95
call and the agent construction succeed, the ask button is pressed with a
non-empty question and the invocation returns a result, exactly the entry
(submitted question, output field of the result) is appended to the
conversation sequence — its length grows by exactly one — and a full
rerun is forced. -/
theorem ask_success_appends_entry_and_reruns
    (inp : RerunInput) (st0 : Option (List ChatEntry)) (f : UploadedFile)
    (df : DataFrame) (resp : AgentResponse)
    (hkey : inp.openai_api_key ≠ "")
    (hfile : inp.uploaded_file = some f)
    (hparse : parseOutcome inp.services f = Except.ok df)
    (hinfo : inp.services.infoSummary = Except.ok ())
    (hchat : inp.services.chatOpenAI = Except.ok ())
    (hagent : inp.services.createAgent = Except.ok ())
    (hclear : inp.clear_button = false)
    (hask : inp.ask_button = true)
    (hq : inp.user_question ≠ "")
    (hinvoke : inp.services.agentInvoke inp.user_question = Except.ok resp) :
    (appRun inp st0).chatHistory =
      some (st0.getD [] ++
        [{ question := inp.user_question, answer := resp.output }]) ∧
    ((appRun inp st0).chatHistory.getD []).length = (st0.getD []).length + 1 ∧
    (appRun inp st0).rerunForced = true := by
  simp [appRun, fileSection, loadedSection, agentSection, qaSection,
    hkey, hfile, hparse, hinfo, hchat, hagent, hclear, hask, hq, hinvoke]

/-- The rerun input of the successful-ask witness. -/
def askInput : RerunInput :=
  { baseInput with
    user_question := "¿Cuántas filas tiene el dataset?", ask_button := true }

/-- Witness for `ask_success_appends_entry_and_reruns`: asking on top of a
one-entry history appends exactly the (question, output) pair and forces
a rerun. -/
theorem ask_success_appends_entry_and_reruns_witness :
    (appRun askInput (some [{ question := "q0", answer := "a0" }])).chatHistory =
      some [ { question := "q0", answer := "a0" },
             { question := "¿Cuántas filas tiene el dataset?",
               answer := "El dataset tiene 2 filas." } ] ∧
    ((appRun askInput
        (some [{ question := "q0", answer := "a0" }])).chatHistory.getD []).length = 2 ∧
    (appRun askInput (some [{ question := "q0", answer := "a0" }])).rerunForced = true := by
  have h := ask_success_appends_entry_and_reruns askInput
    (some [{ question := "q0", answer := "a0" }])
    { name := "datos.csv" } sampleDF { output := "El dataset tiene 2 filas." }
    (by decide) rfl rfl rfl rfl rfl rfl rfl (by decide) rfl
  exact ⟨by simpa using h.1, by simpa using h.2.1, h.2.2⟩

/-- Claim C4: when the agent invocation raises, the conversation sequence
is exactly what it was, the error message carrying the failure detail and
the rephrase/column hint are shown, and no rerun is forced. -/
theorem ask_failure_preserves_history
    (inp : RerunInput) (st0 : Option (List ChatEntry)) (f : UploadedFile)
    (df : DataFrame) (e : String)
    (hkey : inp.openai_api_key ≠ "")
    (hfile : inp.uploaded_file = some f)
    (hparse : parseOutcome inp.services f = Except.ok df)
    (hinfo : inp.services.infoSummary = Except.ok ())
    (hchat : inp.services.chatOpenAI = Except.ok ())
    (hagent : inp.services.createAgent = Except.ok ())
    (hclear : inp.clear_button = false)
    (hask : inp.ask_button = true)
    (hq : inp.user_question ≠ "")
    (hinvoke : inp.services.agentInvoke inp.user_question = Except.error e) :
    (appRun inp st0).chatHistory = some (st0.getD []) ∧
    askError e ∈ (appRun inp st0).events ∧
    askHint ∈ (appRun inp st0).events ∧
    (appRun inp st0).rerunForced = false := by
  simp [appRun, fileSection, loadedSection, agentSection, qaSection,
    hkey, hfile, hparse, hinfo, hchat, hagent, hclear, hask, hq, hinvoke]

/-- External-call outcomes where the agent invocation raises. -/
def failServices : Services :=
  { okServices with
    agentInvoke := fun _ => Except.error "name XYZ is not defined" }

/-- The rerun input of the failing-ask witness. -/
def askFailInput : RerunInput :=
  { baseInput with
    user_question := "Grafica la columna XYZ", ask_button := true,
    services := failServices }

/-- Witness for `ask_failure_preserves_history`: a failing invocation on a
one-entry history leaves it intact, shows the error and the hint, and
forces no rerun. -/
theorem ask_failure_preserves_history_witness :
    (appRun askFailInput (some [{ question := "q0", answer := "a0" }])).chatHistory =
      some [{ question := "q0", answer := "a0" }] ∧
    askError "name XYZ is not defined"
      ∈ (appRun askFailInput (some [{ question := "q0", answer := "a0" }])).events ∧
    askHint ∈ (appRun askFailInput (some [{ question := "q0", answer := "a0" }])).events ∧
    (appRun askFailInput (some [{ question := "q0", answer := "a0" }])).rerunForced = false := by
  have h := ask_failure_preserves_history askFailInput
    (some [{ question := "q0", answer := "a0" }])
    { name := "datos.csv" } sampleDF "name XYZ is not defined"
    (by decide) rfl rfl rfl rfl rfl rfl rfl (by decide) rfl
  exact ⟨by simpa using h.1, h.2.1, h.2.2.1, h.2.2.2⟩

/-- Claim C9: when the ask button is pressed with an empty question text,
no agent invocation is made and the conversation sequence is unchanged. -/
theorem empty_question_no_invoke
    (inp : RerunInput) (st0 : Option (List ChatEntry)) (f : UploadedFile)
    (df : DataFrame)
    (hkey : inp.openai_api_key ≠ "")
    (hfile : inp.uploaded_file = some f)
    (hparse : parseOutcome inp.services f = Except.ok df)
    (hinfo : inp.services.infoSummary = Except.ok ())
    (hchat : inp.services.chatOpenAI = Except.ok ())
    (hagent : inp.services.createAgent = Except.ok ())
    (hclear : inp.clear_button = false)
    (hask : inp.ask_button = true)
    (hq : inp.user_question = "") :
    ExtCall.agentInvoke ∉ (appRun inp st0).calls ∧
    (appRun inp st0).chatHistory = some (st0.getD []) ∧
    (appRun inp st0).rerunForced = false := by
  cases hcsv : strEndsWith f.name ".csv" <;>
    simp [appRun, fileSection, loadedSection, agentSection, qaSection, parseCallOf,
      hkey, hfile, hparse, hinfo, hchat, hagent, hclear, hask, hq, hcsv]

/-- The rerun input of the empty-question witness. -/
def emptyAskInput : RerunInput :=
  { baseInput with ask_button := true, user_question := "" }

/-- Witness for `empty_question_no_invoke`: pressing ask with an empty
question on a one-entry history invokes nothing and changes nothing. -/
theorem empty_question_no_invoke_witness :
    ExtCall.agentInvoke ∉
      (appRun emptyAskInput (some [{ question := "q0", answer := "a0" }])).calls ∧
    (appRun emptyAskInput (some [{ question := "q0", answer := "a0" }])).chatHistory =
      some [{ question := "q0", answer := "a0" }] ∧
    (appRun emptyAskInput (some [{ question := "q0", answer := "a0" }])).rerunForced = false := by
  have h := empty_question_no_invoke emptyAskInput
    (some [{ question := "q0", answer := "a0" }])
    { name := "datos.csv" } sampleDF
    (by decide) rfl rfl rfl rfl rfl rfl rfl rfl
  exact ⟨h.1, by simpa using h.2.1, h.2.2⟩

/-- Claim C5: parsing dispatches on the filename suffix (`.csv` to the
CSV reader, any other accepted name to the spreadsheet reader), and when
parsing raises, the rerun shows only the error carrying the failure
detail and the format hint after the upload widgets — nothing
dataset-dependent is rendered, the session state is unchanged and no
rerun is forced. -/
theorem parse_dispatch_and_failure_halts
    (inp : RerunInput) (st0 : Option (List ChatEntry)) (f : UploadedFile)
    (e : String)
    (hkey : inp.openai_api_key ≠ "")
    (hfile : inp.uploaded_file = some f) :
    (appRun inp st0).calls.head? = some (parseCallOf f) ∧
    (strEndsWith f.name ".csv" = true →
      parseCallOf f = ExtCall.readCsv ∧
      parseOutcome inp.services f = inp.services.readCsv) ∧
    (strEndsWith f.name ".csv" = false →
      parseCallOf f = ExtCall.readExcel ∧
      parseOutcome inp.services f = inp.services.readExcel) ∧
    (parseOutcome inp.services f = Except.error e →
      (appRun inp st0).events =
        configEvents ++ uploadPrompt ++ [fileLoadError e, fileLoadHint] ∧
      (appRun inp st0).chatHistory = st0 ∧
      (appRun inp st0).rerunForced = false) := by
  refine ⟨?_, ?_, ?_, ?_⟩
  · cases hp : parseOutcome inp.services f <;>
      simp [appRun, fileSection, hkey, hfile, hp]
  · intro hc
    simp [parseCallOf, parseOutcome, hc]
  · intro hc
    simp [parseCallOf, parseOutcome, hc]
  · intro hp
    simp [appRun, fileSection, hkey, hfile, hp]

/-- External-call outcomes where the spreadsheet reader raises. -/
def badParseServices : Services :=
  { okServices with
    readExcel := Except.error "Excel file format cannot be determined" }

/-- The rerun input of the parse-failure witness: an `.xlsx` upload whose
parse raises. -/
def badParseInput : RerunInput :=
  { baseInput with
    uploaded_file := some { name := "datos.xlsx" }, services := badParseServices }

/-- Witness for `parse_dispatch_and_failure_halts`: an `.xlsx` name goes
to the spreadsheet reader, and its failure halts the rerun with the error
and the hint. -/
theorem parse_dispatch_and_failure_halts_witness :
    (appRun badParseInput none).calls.head? = some ExtCall.readExcel ∧
    (appRun badParseInput none).events =
      configEvents ++ uploadPrompt ++
        [fileLoadError "Excel file format cannot be determined", fileLoadHint] ∧
    (appRun badParseInput none).chatHistory = none ∧
    (appRun badParseInput none).rerunForced = false := by
  have h := parse_dispatch_and_failure_halts badParseInput none
    { name := "datos.xlsx" } "Excel file format cannot be determined"
    (by decide) rfl
  have h4 := h.2.2.2 rfl
  refine ⟨?_, h4.1, h4.2.1, h4.2.2⟩
  rw [h.1]
  decide

set_option maxRecDepth 100000 in
/-- Claim C2 (divergence): with a successfully parsed dataset, the
line-95 `get_info_summary` call raises, the exception is caught by the
file-load handler of lines 209-211, and the rerun shows the file-load
error instead of ever rendering the per-column schema table. -/
theorem schema_view_blocked_by_info_summary_failure :
    hasSchemaView (appRun c2Input none).events = false ∧
    fileLoadError "module pandas.io.formats.info has no attribute get_info_summary"
      ∈ (appRun c2Input none).events ∧
    fileLoadHint ∈ (appRun c2Input none).events ∧
    (appRun c2Input none).calls = [ExtCall.readCsv, ExtCall.infoSummary] := by
  decide

/-- The collapsible sections built from any start index carry their
entries in list order. -/
theorem renderedEntries_sections (l : List ChatEntry) (n : Nat) :
    renderedEntries ((List.enumFrom n l).map fun p =>
      UIEvent.expanderEntry (expanderLabel p.2.question) (p.1 == 0) p.2) = l := by
  induction l generalizing n with
  | nil => rfl
  | cons a as ih =>
    simpa [renderedEntries, List.enumFrom] using ih (n + 1)

/-- The collapsible sections built from a positive start index are all
collapsed. -/
theorem expandedFlags_sections (l : List ChatEntry) (n : Nat) :
    expandedFlags ((List.enumFrom (n + 1) l).map fun p =>
      UIEvent.expanderEntry (expanderLabel p.2.question) (p.1 == 0) p.2) =
      List.replicate l.length false := by
  induction l generalizing n with
  | nil => rfl
  | cons a as ih =>
    simpa [expandedFlags, List.enumFrom, List.replicate_succ] using ih (n + 1)

/-- Claim C6: a non-empty conversation sequence is rendered
most-recent-first — the sections carry exactly the reversed sequence —
and only the first rendered (most recent) section is expanded, all others
are collapsed. -/
theorem history_renders_newest_first (hist : List ChatEntry) (hne : hist ≠ []) :
    renderedEntries (renderHistory hist) = hist.reverse ∧
    expandedFlags (renderHistory hist) =
      true :: List.replicate (hist.length - 1) false := by
  have hisEmpty : hist.isEmpty = false := by
    cases hist with
    | nil => exact absurd rfl hne
    | cons x xs => rfl
  have hrh : renderHistory hist =
      UIEvent.subheader "💬 Historial de conversación" ::
        ((List.enumFrom 0 hist.reverse).map fun p =>
          UIEvent.expanderEntry (expanderLabel p.2.question) (p.1 == 0) p.2) := by
    simp [renderHistory, hisEmpty]
  have hrev : hist.reverse ≠ [] := by
    simpa using hne
  obtain ⟨b, bs, hbs⟩ := List.exists_cons_of_ne_nil hrev
  have hlen : hist.length - 1 = bs.length := by
    have h1 := congrArg List.length hbs
    simp at h1
    omega
  constructor
  · rw [hrh]
    simpa [renderedEntries] using renderedEntries_sections hist.reverse 0
  · rw [hrh, hbs, hlen]
    simpa [expandedFlags, List.enumFrom] using expandedFlags_sections bs 0

/-- Three entries appended in this order witness the rendering order. -/
def entryE1 : ChatEntry := { question := "primera pregunta", answer := "respuesta uno" }

/-- Second appended entry of the rendering witness. -/
def entryE2 : ChatEntry := { question := "segunda pregunta", answer := "respuesta dos" }

/-- Third appended entry of the rendering witness. -/
def entryE3 : ChatEntry := { question := "tercera pregunta", answer := "respuesta tres" }

/-- Witness for `history_renders_newest_first`: entries appended in the
order E1, E2, E3 render as E3, E2, E1 with only the first section
expanded. -/
theorem history_renders_newest_first_witness :
    renderedEntries (renderHistory [entryE1, entryE2, entryE3]) =
      [entryE3, entryE2, entryE1] ∧
    expandedFlags (renderHistory [entryE1, entryE2, entryE3]) =
      [true, false, false] := by
  have h := history_renders_newest_first [entryE1, entryE2, entryE3] (by decide)
  exact ⟨h.1.trans (by decide), h.2.trans (by decide)⟩

/-- Bool-level reading of `noHistoryOrControl`. -/
theorem noHistoryOrControl_iff (l : List UIEvent) :
    noHistoryOrControl l = true ↔ ∀ ev ∈ l, isHistoryOrControl ev = false := by
  simp [noHistoryOrControl, List.all_eq_true]

/-- The statistics tab never renders a history or control element. -/
theorem statsEvent_not_history (df : DataFrame) :
    isHistoryOrControl (statsEvent df) = false := by
  simp only [statsEvent]
  split
  · rfl
  · rfl

/-- Claim C10: the conversation history is initialized and rendered only
when a file was uploaded, parsed, and the client and agent were
constructed: on a rerun missing a file, failing to parse, or failing
either construction, the stored sequence is untouched and no history
section and no ask/clear control is rendered, whatever the sequence
holds. -/
theorem history_frame_only_after_agent
    (inp : RerunInput) (st0 : Option (List ChatEntry))
    (h : inp.uploaded_file = none ∨
         (∃ f e, inp.uploaded_file = some f ∧
            parseOutcome inp.services f = Except.error e) ∨
         (∃ e, inp.services.chatOpenAI = Except.error e) ∨
         (∃ e, inp.services.createAgent = Except.error e)) :
    (appRun inp st0).chatHistory = st0 ∧
    noHistoryOrControl (appRun inp st0).events = true := by
  by_cases hkey : inp.openai_api_key = ""
  · exact ⟨by simp [appRun, hkey], by
      simp [appRun, hkey, noHistoryOrControl_iff, configEvents, credWarning,
        credInfo, isHistoryOrControl]⟩
  · cases hfile : inp.uploaded_file with
    | none =>
      exact ⟨by simp [appRun, hkey, hfile], by
        simp [appRun, hkey, hfile, noHistoryOrControl_iff, configEvents,
          uploadPrompt, idleEvents, isHistoryOrControl]⟩
    | some f =>
      cases hp : parseOutcome inp.services f with
      | error e =>
        exact ⟨by simp [appRun, fileSection, hkey, hfile, hp], by
          simp [appRun, fileSection, hkey, hfile, hp, noHistoryOrControl_iff,
            configEvents, uploadPrompt, fileLoadError, fileLoadHint,
            isHistoryOrControl]⟩
      | ok df =>
        cases hi : inp.services.infoSummary with
        | error e =>
          exact ⟨by simp [appRun, fileSection, loadedSection, hkey, hfile, hp, hi], by
            simp [appRun, fileSection, loadedSection, hkey, hfile, hp, hi,
              noHistoryOrControl_iff, configEvents, uploadPrompt, datasetEvents,
              fileLoadError, fileLoadHint, isHistoryOrControl]⟩
        | ok u =>
          cases hc : inp.services.chatOpenAI with
          | error e =>
            refine ⟨by simp [appRun, fileSection, loadedSection, agentSection,
                hkey, hfile, hp, hi, hc], ?_⟩
            simp [appRun, fileSection, loadedSection, agentSection,
              hkey, hfile, hp, hi, hc, noHistoryOrControl_iff, configEvents,
              uploadPrompt, datasetEvents, agentInitError, agentInitHint,
              isHistoryOrControl]
            exact statsEvent_not_history df
          | ok u2 =>
            cases ha : inp.services.createAgent with
            | error e =>
              refine ⟨by simp [appRun, fileSection, loadedSection, agentSection,
                  hkey, hfile, hp, hi, hc, ha], ?_⟩
              simp [appRun, fileSection, loadedSection, agentSection,
                hkey, hfile, hp, hi, hc, ha, noHistoryOrControl_iff, configEvents,
                uploadPrompt, datasetEvents, agentInitError, agentInitHint,
                isHistoryOrControl]
              exact statsEvent_not_history df
            | ok u3 =>
              exfalso
              rcases h with h1 | ⟨f2, e2, hf2, hp2⟩ | ⟨e2, hc2⟩ | ⟨e2, ha2⟩
              · rw [hfile] at h1
                exact Option.noConfusion h1
              · rw [hfile] at hf2
                injection hf2 with hf3
                subst hf3
                rw [hp] at hp2
                exact Except.noConfusion hp2
              · rw [hc2] at hc
                exact Except.noConfusion hc
              · rw [ha2] at ha
                exact Except.noConfusion ha

/-- The rerun input of the idle-history witness: a credential is set but
no file is uploaded. -/
def idleInput : RerunInput := { baseInput with uploaded_file := none }

/-- Witness for `history_frame_only_after_agent`: with no file uploaded,
a non-empty stored history stays untouched and nothing of the history or
ask/clear UI renders. -/
theorem history_frame_only_after_agent_witness :
    (appRun idleInput (some [entryE1])).chatHistory = some [entryE1] ∧
    noHistoryOrControl (appRun idleInput (some [entryE1])).events = true :=
  history_frame_only_after_agent idleInput (some [entryE1]) (Or.inl rfl)

end DataAgent
